import Mathlib

/-!
# Verification of the subscription lifecycle manager

Shallow embedding of `app/services/subscription_service.py` (together with the
pieces of `app/models/subscription.py`, `app/models/plan.py`,
`app/schemas/subscription.py`, `app/core/exceptions.py` and
`app/api/subscriptions.py` that the lifecycle manager touches), with theorems
about the lifecycle invariants and operations.

Modelling notes:
* Timestamps (`datetime`) are modelled as `Int` Unix-style timestamps in
  seconds; `timedelta(days = d)` is `86400 * d`.
* The database session is modelled as an explicit state record `DB`; a service
  call returns `Except ServiceError (DB × Subscription)`.  An `Except.error`
  result carries no new state: the transaction performs no write before the
  raise, so the store is unchanged on every failure path.
* SQLAlchemy's `scalar_one_or_none` raises `MultipleResultsFound` when the
  query yields more than one row, and `scalar_one` additionally raises
  `NoResultFound` on zero rows; both raises are modelled as error results.
* Only the columns the lifecycle manager reads or writes are modelled
  (`User` contributes only its primary key; `Plan.name/price/features` and the
  `created_at/updated_at` bookkeeping columns of `Plan` are elided).
* `get_subscription_by_user` in the source orders by `created_at` descending
  before calling `scalar_one_or_none`; since `scalar_one_or_none` is invariant
  under permutation of the result set (one row, zero rows, or an error), the
  sort is not reproduced.
-/

/-- `SubscriptionStatus` enum from `app/models/subscription.py`. -/
inductive SubscriptionStatus where
  | ACTIVE
  | INACTIVE
  | CANCELLED
  | EXPIRED
deriving DecidableEq, Repr

/-- The columns of `Plan` (from `app/models/plan.py`) that the lifecycle
manager consults: primary key, duration in days, and the active flag. -/
structure Plan where
  id : Nat
  duration_days : Nat
  is_active : Bool
deriving DecidableEq, Repr

/-- The columns of `Subscription` (from `app/models/subscription.py`) that the
lifecycle manager reads or writes. -/
structure Subscription where
  id : Nat
  user_id : Nat
  plan_id : Nat
  status : SubscriptionStatus
  start_date : Int
  end_date : Int
  auto_renew : Bool
  created_at : Int
deriving DecidableEq, Repr

/-- The database state visible to the lifecycle manager: the users table
(only primary keys are consulted), the plans table, the subscriptions table,
and the next autoincrement id for subscription inserts. -/
structure DB where
  users : List Nat
  plans : List Plan
  subs : List Subscription
  next_id : Nat
deriving DecidableEq, Repr

/-- Failure outcomes of a service call: `NotFound` / `Conflict` are the typed
HTTP exceptions of `app/core/exceptions.py` (404 / 409); `MultipleResults` and
`NoResult` model SQLAlchemy's `MultipleResultsFound` / `NoResultFound` raised
by `scalar_one_or_none` / `scalar_one`. -/
inductive ServiceError where
  | NotFound
  | Conflict
  | MultipleResults
  | NoResult
deriving DecidableEq, Repr

/-- `SubscriptionCreate` schema from `app/schemas/subscription.py`. -/
structure SubscriptionCreate where
  user_id : Nat
  plan_id : Nat
  auto_renew : Bool
deriving DecidableEq, Repr

/-- `SubscriptionUpdate` schema from `app/schemas/subscription.py`: all three
fields are optional, and `none` models a field absent from
`model_dump(exclude_unset = True)`. -/
structure SubscriptionUpdate where
  plan_id : Option Nat
  auto_renew : Option Bool
  status : Option SubscriptionStatus
deriving DecidableEq, Repr

/-- `result.scalar_one_or_none()`: `none` on zero rows, the row on exactly one,
and the `MultipleResultsFound` error on two or more. -/
def scalarOneOrNone {α : Type} (l : List α) : Except ServiceError (Option α) :=
  match l with
  | [] => .ok none
  | [x] => .ok (some x)
  | _ :: _ :: _ => .error .MultipleResults

/-- `result.scalar_one()`: the row on exactly one, `NoResultFound` on zero,
`MultipleResultsFound` on two or more. -/
def scalarOne {α : Type} (l : List α) : Except ServiceError α :=
  match l with
  | [] => .error .NoResult
  | [x] => .ok x
  | _ :: _ :: _ => .error .MultipleResults

/-- `timedelta(days = d)` in seconds. -/
def timedeltaDays (d : Nat) : Int := 86400 * d

/-- The WHERE clause of `get_active_subscription_by_user`:
`user_id == uid AND status == ACTIVE`. -/
def activePred (uid : Nat) (s : Subscription) : Bool :=
  decide (s.user_id = uid) && decide (s.status = SubscriptionStatus.ACTIVE)

/-- `SubscriptionService.get_active_subscription_by_user`. -/
def get_active_subscription_by_user (db : DB) (uid : Nat) :
    Except ServiceError (Option Subscription) :=
  scalarOneOrNone (db.subs.filter (activePred uid))

/-- The WHERE clause of `get_subscription_by_user`:
`user_id == uid AND status IN (ACTIVE, INACTIVE)`. -/
def currentPred (uid : Nat) (s : Subscription) : Bool :=
  decide (s.user_id = uid) &&
    (decide (s.status = SubscriptionStatus.ACTIVE) ||
     decide (s.status = SubscriptionStatus.INACTIVE))

/-- `SubscriptionService.get_subscription_by_user`. -/
def get_subscription_by_user (db : DB) (uid : Nat) :
    Except ServiceError (Option Subscription) :=
  scalarOneOrNone (db.subs.filter (currentPred uid))

/-- `SubscriptionService.create_subscription`: verify the user exists, verify
the plan exists and is active, reject when an ACTIVE subscription already
exists, then insert a new ACTIVE row with
`start_date = now` and `end_date = start_date + timedelta(days = plan.duration_days)`. -/
def create_subscription (db : DB) (now : Int) (c : SubscriptionCreate) :
    Except ServiceError (DB × Subscription) :=
  match scalarOneOrNone (db.users.filter (fun u => decide (u = c.user_id))) with
  | .error e => .error e
  | .ok none => .error .NotFound
  | .ok (some _) =>
    match scalarOneOrNone
        (db.plans.filter (fun p => decide (p.id = c.plan_id) && p.is_active)) with
    | .error e => .error e
    | .ok none => .error .NotFound
    | .ok (some plan) =>
      match get_active_subscription_by_user db c.user_id with
      | .error e => .error e
      | .ok (some _) => .error .Conflict
      | .ok none =>
        let start_date := now
        let end_date := start_date + timedeltaDays plan.duration_days
        let sub : Subscription :=
          { id := db.next_id
            user_id := c.user_id
            plan_id := c.plan_id
            status := SubscriptionStatus.ACTIVE
            start_date := start_date
            end_date := end_date
            auto_renew := c.auto_renew
            created_at := now }
        .ok ({ db with subs := db.subs ++ [sub], next_id := db.next_id + 1 }, sub)

/-- The `for field, value in update_data.items(): setattr(subscription, field, value)`
loop of `update_subscription`: each field present in the payload overwrites the
corresponding column. -/
def applyUpdates (s : Subscription) (d : SubscriptionUpdate) : Subscription :=
  { s with
    plan_id := d.plan_id.getD s.plan_id
    auto_renew := d.auto_renew.getD s.auto_renew
    status := d.status.getD s.status }

/-- Committing an in-place mutation of the fetched row: the (unique, by
`scalar_one_or_none`) row with `user_id = uid AND status = ACTIVE` is replaced
by the mutated object `s2`; every other row is untouched. -/
def replaceActive (db : DB) (uid : Nat) (s2 : Subscription) : DB :=
  { db with
    subs := db.subs.map (fun s => if activePred uid s then s2 else s) }

/-- `SubscriptionService.update_subscription`: fetch the user's ACTIVE
subscription (404 if none); when the payload carries a `plan_id`, resolve the
new plan (must be active, else 404) and the currently bound plan, and if
their durations differ reset `end_date = now + timedelta(days = newPlan.duration_days)`;
finally apply every payload field via `setattr` and commit. -/
def update_subscription (db : DB) (now : Int) (uid : Nat) (d : SubscriptionUpdate) :
    Except ServiceError (DB × Subscription) :=
  match get_active_subscription_by_user db uid with
  | .error e => .error e
  | .ok none => .error .NotFound
  | .ok (some sub) =>
    match d.plan_id with
    | none =>
      let sub2 := applyUpdates sub d
      .ok (replaceActive db uid sub2, sub2)
    | some pid =>
      match scalarOneOrNone
          (db.plans.filter (fun p => decide (p.id = pid) && p.is_active)) with
      | .error e => .error e
      | .ok none => .error .NotFound
      | .ok (some plan) =>
        match scalarOne (db.plans.filter (fun p => decide (p.id = sub.plan_id))) with
        | .error e => .error e
        | .ok current_plan =>
          let sub1 :=
            if plan.duration_days ≠ current_plan.duration_days then
              { sub with end_date := now + timedeltaDays plan.duration_days }
            else sub
          let sub2 := applyUpdates sub1 d
          .ok (replaceActive db uid sub2, sub2)

/-- `SubscriptionService.cancel_subscription`: fetch the user's ACTIVE
subscription (404 if none), set `status = CANCELLED` and `auto_renew = False`,
and commit. -/
def cancel_subscription (db : DB) (uid : Nat) :
    Except ServiceError (DB × Subscription) :=
  match get_active_subscription_by_user db uid with
  | .error e => .error e
  | .ok none => .error .NotFound
  | .ok (some sub) =>
    let sub2 := { sub with
      status := SubscriptionStatus.CANCELLED
      auto_renew := false }
    .ok (replaceActive db uid sub2, sub2)

/-- The WHERE clause of `expire_subscriptions`:
`status == ACTIVE AND end_date <= current_time`. -/
def expirePred (now : Int) (s : Subscription) : Bool :=
  decide (s.status = SubscriptionStatus.ACTIVE) && decide (s.end_date ≤ now)

/-- `SubscriptionService.expire_subscriptions`: every ACTIVE row with
`end_date <= current_time` moves to EXPIRED; returns the new state and the
count of transitioned rows. -/
def expire_subscriptions (db : DB) (now : Int) : DB × Nat :=
  ({ db with
      subs := db.subs.map (fun s =>
        if expirePred now s then { s with status := SubscriptionStatus.EXPIRED } else s) },
   db.subs.countP (expirePred now))

/-- Outcomes of the `GET /subscriptions/{user_id}` route, as the presentation
layer sees them. -/
inductive ApiResponse where
  | ok (s : Subscription)
  | notFound (detail : String)
  | forbidden (detail : String)
  | internalError
deriving DecidableEq, Repr

/-- The `get_user_subscription` route handler from `app/api/subscriptions.py`:
403 when the path user is not the authenticated user, 404 with
"No subscription found for user" when the service returns no row. -/
def get_user_subscription (db : DB) (user_id current_user_id : Nat) : ApiResponse :=
  if user_id ≠ current_user_id then
    .forbidden "Not authorized to access this subscription"
  else
    match get_subscription_by_user db user_id with
    | .error _ => .internalError
    | .ok none => .notFound "No subscription found for user"
    | .ok (some s) => .ok s

/-- Invariant I1: for every user, at most one subscription row is ACTIVE. -/
def I1 (db : DB) : Prop :=
  ∀ uid : Nat, db.subs.countP (activePred uid) ≤ 1

/-- No subscription row has the INACTIVE status. -/
def NoInactive (db : DB) : Prop :=
  ∀ s ∈ db.subs, s.status ≠ SubscriptionStatus.INACTIVE

/-! ## Helper lemmas -/

theorem scalarOneOrNone_eq_ok_none {α : Type} {l : List α} :
    scalarOneOrNone l = .ok none ↔ l = [] := by
  cases l with
  | nil => simp [scalarOneOrNone]
  | cons a t =>
    cases t with
    | nil => simp [scalarOneOrNone]
    | cons b u => simp [scalarOneOrNone]

theorem scalarOneOrNone_eq_ok_some {α : Type} {l : List α} {x : α} :
    scalarOneOrNone l = .ok (some x) ↔ l = [x] := by
  cases l with
  | nil => simp [scalarOneOrNone]
  | cons a t =>
    cases t with
    | nil => simp [scalarOneOrNone]
    | cons b u => simp [scalarOneOrNone]

theorem activePred_iff (uid : Nat) (s : Subscription) :
    activePred uid s = true ↔ (s.user_id = uid ∧ s.status = SubscriptionStatus.ACTIVE) := by
  simp [activePred]

theorem expirePred_iff (now : Int) (s : Subscription) :
    expirePred now s = true ↔
      (s.status = SubscriptionStatus.ACTIVE ∧ s.end_date ≤ now) := by
  simp [expirePred]

theorem expirePred_expireStep (t : Int) (s : Subscription) :
    expirePred t
      (if expirePred t s then { s with status := SubscriptionStatus.EXPIRED } else s) = false := by
  by_cases h : expirePred t s = true
  · simp only [h, if_true]
    simp [expirePred]
  · simp only [Bool.not_eq_true] at h
    simp [h]

theorem expirePred_eq (now : Int) (s : Subscription) :
    expirePred now s =
      decide (s.status = SubscriptionStatus.ACTIVE ∧ s.end_date ≤ now) := by
  by_cases h1 : s.status = SubscriptionStatus.ACTIVE <;>
    by_cases h2 : s.end_date ≤ now <;>
      simp [expirePred, h1, h2]

/-- C4: `expire_subscriptions` at time `asOf` transitions to EXPIRED exactly
the subscriptions with `status = ACTIVE` and `end_date ≤ asOf`, returns the
count of transitioned rows, and leaves every other subscription (and the
users and plans tables) unchanged. -/
theorem expire_subscriptions_spec (db : DB) (now : Int) :
    (expire_subscriptions db now).2 =
      (db.subs.filter (fun s =>
        decide (s.status = SubscriptionStatus.ACTIVE ∧ s.end_date ≤ now))).length ∧
    (∀ i : Nat, ((expire_subscriptions db now).1.subs)[i]? =
      (db.subs[i]?).map (fun s =>
        if s.status = SubscriptionStatus.ACTIVE ∧ s.end_date ≤ now
        then { s with status := SubscriptionStatus.EXPIRED } else s)) ∧
    (expire_subscriptions db now).1.users = db.users ∧
    (expire_subscriptions db now).1.plans = db.plans ∧
    (expire_subscriptions db now).1.subs.length = db.subs.length := by
  refine ⟨?_, ?_, rfl, rfl, by simp [expire_subscriptions]⟩
  · simp only [expire_subscriptions, List.countP_eq_length_filter]
    congr 1
    apply List.filter_congr
    intro s _
    exact expirePred_eq now s
  · intro i
    simp only [expire_subscriptions, List.getElem?_map]
    cases hs : db.subs[i]? with
    | none => rfl
    | some s =>
      simp only [Option.map_some']
      by_cases h : s.status = SubscriptionStatus.ACTIVE ∧ s.end_date ≤ now
      · have hb : expirePred now s = true := by
          rw [expirePred_eq]; exact decide_eq_true h
        simp [hb, h]
      · have hb : expirePred now s = false := by
          rw [expirePred_eq]; exact decide_eq_false h
        simp [hb, h]

/-- C5: `expire_subscriptions` is idempotent: a second sweep at the same time
`t` transitions zero rows and leaves the state unchanged. -/
theorem expire_subscriptions_idempotent (db : DB) (t : Int) :
    (expire_subscriptions (expire_subscriptions db t).1 t).2 = 0 ∧
    (expire_subscriptions (expire_subscriptions db t).1 t).1 =
      (expire_subscriptions db t).1 := by
  constructor
  · simp only [expire_subscriptions]
    rw [List.countP_map]
    apply List.countP_eq_zero.mpr
    intro s _
    simp only [Function.comp_apply]
    simp [expirePred_expireStep]
  · simp only [expire_subscriptions]
    congr 1
    rw [List.map_map]
    apply List.map_congr_left
    intro s _
    simp only [Function.comp_apply]
    rw [expirePred_expireStep]
    simp

theorem countP_of_filter_nil {α : Type} {p : α → Bool} {l : List α}
    (h : l.filter p = []) : l.countP p = 0 := by
  rw [List.countP_eq_length_filter, h]
  rfl

theorem replaceActive_map_id {uid : Nat} {s2 : Subscription} {l : List Subscription}
    (h : l.filter (activePred uid) = []) :
    l.map (fun s => if activePred uid s then s2 else s) = l := by
  induction l with
  | nil => rfl
  | cons a t ih =>
    by_cases ha : activePred uid a = true
    · simp [List.filter_cons, ha] at h
    · rw [Bool.not_eq_true] at ha
      simp only [List.filter_cons, ha, Bool.false_eq_true, if_false] at h
      simp only [List.map_cons, ha, Bool.false_eq_true, if_false, ih h]

theorem countP_map_le {α : Type} (p : α → Bool) (f : α → α) (l : List α)
    (h : ∀ a ∈ l, p (f a) = true → p a = true) :
    (l.map f).countP p ≤ l.countP p := by
  induction l with
  | nil => simp
  | cons a t ih =>
    simp only [List.map_cons, List.countP_cons]
    have ih2 := ih (fun b hb => h b (List.mem_cons_of_mem a hb))
    have h2 := h a (List.mem_cons_self a t)
    by_cases hfa : p (f a) = true
    · rw [if_pos hfa, if_pos (h2 hfa)]
      omega
    · rw [if_neg hfa]
      by_cases hb : p a = true
      · rw [if_pos hb]; omega
      · rw [if_neg hb]; omega

theorem countP_replaceActive_ne {uid' uid : Nat} {s2 : Subscription}
    (hne : uid' ≠ uid) (hu : s2.user_id = uid) (l : List Subscription) :
    (l.map (fun x => if activePred uid x then s2 else x)).countP (activePred uid') ≤
      l.countP (activePred uid') := by
  apply countP_map_le
  intro a _ hpa
  by_cases ha : activePred uid a = true
  · rw [if_pos ha] at hpa
    have h1 : s2.user_id = uid' := ((activePred_iff uid' s2).mp hpa).1
    exact absurd (h1.symm.trans hu) hne
  · rwa [if_neg ha] at hpa

theorem countP_replaceActive_self {uid : Nat} {s2 s : Subscription} {l : List Subscription}
    (hf : l.filter (activePred uid) = [s]) :
    (l.map (fun x => if activePred uid x then s2 else x)).countP (activePred uid) ≤ 1 := by
  induction l with
  | nil => simp at hf
  | cons a t ih =>
    by_cases ha : activePred uid a = true
    · have h1 : a = s ∧ t.filter (activePred uid) = [] := by
        simpa [List.filter_cons, ha] using hf
      rw [List.map_cons, if_pos ha, replaceActive_map_id h1.2, List.countP_cons,
        countP_of_filter_nil h1.2]
      by_cases hb : activePred uid s2 = true <;> simp [hb]
    · rw [Bool.not_eq_true] at ha
      have h1 : t.filter (activePred uid) = [s] := by
        simpa [List.filter_cons, ha] using hf
      rw [List.map_cons, if_neg (by simp [ha]), List.countP_cons, ha]
      simpa using ih h1

theorem countP_active_expire_le (uid : Nat) (t : Int) (l : List Subscription) :
    (l.map (fun s =>
      if expirePred t s then { s with status := SubscriptionStatus.EXPIRED } else s)).countP
        (activePred uid) ≤ l.countP (activePred uid) := by
  apply countP_map_le
  intro a _ hpa
  by_cases ha : expirePred t a = true
  · rw [if_pos ha] at hpa
    exact absurd ((activePred_iff uid _).mp hpa).2 (by simp)
  · rwa [if_neg ha] at hpa

theorem get_active_ok_some {db : DB} {uid : Nat} {sub : Subscription}
    (h : get_active_subscription_by_user db uid = .ok (some sub)) :
    db.subs.filter (activePred uid) = [sub] ∧ sub.user_id = uid ∧
      sub.status = SubscriptionStatus.ACTIVE := by
  unfold get_active_subscription_by_user at h
  rw [scalarOneOrNone_eq_ok_some] at h
  refine ⟨h, ?_⟩
  have hm : sub ∈ db.subs.filter (activePred uid) := by
    rw [h]
    exact List.mem_singleton_self sub
  exact (activePred_iff uid sub).mp (List.mem_filter.mp hm).2

theorem get_active_ok_none {db : DB} {uid : Nat}
    (h : get_active_subscription_by_user db uid = .ok none) :
    db.subs.filter (activePred uid) = [] := by
  unfold get_active_subscription_by_user at h
  rwa [scalarOneOrNone_eq_ok_none] at h

theorem create_subscription_ok {db : DB} {now : Int} {c : SubscriptionCreate}
    {db' : DB} {r : Subscription}
    (h : create_subscription db now c = .ok (db', r)) :
    db.subs.filter (activePred c.user_id) = [] ∧
    db.users.filter (fun u => decide (u = c.user_id)) = [c.user_id] ∧
    db' = { db with subs := db.subs ++ [r], next_id := db.next_id + 1 } ∧
    ∃ plan, db.plans.filter (fun p => decide (p.id = c.plan_id) && p.is_active) = [plan] ∧
      r = { id := db.next_id, user_id := c.user_id, plan_id := c.plan_id,
            status := SubscriptionStatus.ACTIVE, start_date := now,
            end_date := now + timedeltaDays plan.duration_days,
            auto_renew := c.auto_renew, created_at := now } := by
  unfold create_subscription at h
  split at h
  · cases h
  · cases h
  · next u hu =>
    split at h
    · cases h
    · cases h
    · next plan hp =>
      split at h
      · cases h
      · cases h
      · next hact =>
        simp only [Except.ok.injEq, Prod.mk.injEq] at h
        obtain ⟨h1, h2⟩ := h
        rw [scalarOneOrNone_eq_ok_some] at hu
        have hu2 : u = c.user_id := by
          have : u ∈ db.users.filter (fun x => decide (x = c.user_id)) := by
            rw [hu]
            exact List.mem_singleton_self u
          simpa using (List.mem_filter.mp this).2
        rw [scalarOneOrNone_eq_ok_some] at hp
        refine ⟨get_active_ok_none hact, hu2 ▸ hu, ?_, plan, hp, h2.symm⟩
        rw [← h2]
        exact h1.symm

theorem cancel_subscription_ok {db : DB} {uid : Nat} {db' : DB} {r : Subscription}
    (h : cancel_subscription db uid = .ok (db', r)) :
    ∃ sub, get_active_subscription_by_user db uid = .ok (some sub) ∧
      r = { sub with status := SubscriptionStatus.CANCELLED, auto_renew := false } ∧
      db' = replaceActive db uid r := by
  unfold cancel_subscription at h
  split at h
  · cases h
  · cases h
  · next sub hact =>
    simp only [Except.ok.injEq, Prod.mk.injEq] at h
    obtain ⟨h1, h2⟩ := h
    refine ⟨sub, hact, h2.symm, ?_⟩
    rw [← h2]
    exact h1.symm

theorem update_subscription_ok {db : DB} {now : Int} {uid : Nat} {d : SubscriptionUpdate}
    {db' : DB} {r : Subscription}
    (h : update_subscription db now uid d = .ok (db', r)) :
    ∃ sub, get_active_subscription_by_user db uid = .ok (some sub) ∧
      r.user_id = sub.user_id ∧
      r.status = d.status.getD sub.status ∧
      db' = replaceActive db uid r := by
  unfold update_subscription at h
  split at h
  · cases h
  · cases h
  · next sub hact =>
    refine ⟨sub, hact, ?_⟩
    split at h
    · simp only [Except.ok.injEq, Prod.mk.injEq] at h
      obtain ⟨h1, h2⟩ := h
      subst h1
      subst h2
      exact ⟨rfl, rfl, rfl⟩
    · next pid hpid =>
      split at h
      · cases h
      · cases h
      · next plan hp =>
        split at h
        · cases h
        · next current_plan hcp =>
          simp only [Except.ok.injEq, Prod.mk.injEq] at h
          obtain ⟨h1, h2⟩ := h
          subst h1
          subst h2
          by_cases hd : plan.duration_days ≠ current_plan.duration_days
          · rw [if_pos hd]
            exact ⟨rfl, rfl, rfl⟩
          · rw [if_neg hd]
            exact ⟨rfl, rfl, rfl⟩

theorem I1_replaceActive {db : DB} {uid : Nat} {s2 s : Subscription}
    (h : I1 db) (hf : db.subs.filter (activePred uid) = [s]) (hu : s2.user_id = uid) :
    I1 (replaceActive db uid s2) := by
  intro uid'
  show (db.subs.map (fun x => if activePred uid x then s2 else x)).countP (activePred uid') ≤ 1
  by_cases he : uid' = uid
  · subst he
    exact countP_replaceActive_self hf
  · exact le_trans (countP_replaceActive_ne he hu db.subs) (h uid')

/-- C1: starting from a state where every user has at most one ACTIVE
subscription row, each of `create_subscription`, `update_subscription`,
`cancel_subscription` and `expire_subscriptions` preserves that invariant;
moreover `create_subscription` never inserts a row while the user already has
an ACTIVE subscription, and (when the user and the active plan resolve) it
raises `Conflict` in that situation. -/
theorem single_active_invariant (db : DB) (now : Int) (c : SubscriptionCreate)
    (uid : Nat) (d : SubscriptionUpdate) (h : I1 db) :
    (∀ db' s, create_subscription db now c = .ok (db', s) → I1 db') ∧
    (∀ db' s, update_subscription db now uid d = .ok (db', s) → I1 db') ∧
    (∀ db' s, cancel_subscription db uid = .ok (db', s) → I1 db') ∧
    I1 (expire_subscriptions db now).1 ∧
    (db.subs.filter (activePred c.user_id) ≠ [] →
      ∀ r, create_subscription db now c ≠ .ok r) ∧
    (∀ u p s0, db.users.filter (fun x => decide (x = c.user_id)) = [u] →
      db.plans.filter (fun q => decide (q.id = c.plan_id) && q.is_active) = [p] →
      db.subs.filter (activePred c.user_id) = [s0] →
      create_subscription db now c = .error .Conflict) := by
  refine ⟨?_, ?_, ?_, ?_, ?_, ?_⟩
  · intro db' s hok
    obtain ⟨hnil, -, hdb', plan, hp, hr⟩ := create_subscription_ok hok
    subst hdb'
    intro uid'
    show (db.subs ++ [s]).countP (activePred uid') ≤ 1
    rw [List.countP_append]
    have h1 := h uid'
    by_cases he : uid' = c.user_id
    · subst he
      rw [countP_of_filter_nil hnil]
      have h2 : List.countP (activePred c.user_id) [s] ≤ 1 :=
        le_trans (List.countP_le_length _) (by simp)
      omega
    · have hcu : s.user_id = c.user_id := by rw [hr]
      have hs0 : activePred uid' s = false := by
        simp only [activePred, hcu, decide_eq_false (Ne.symm he), Bool.false_and]
      have h2 : List.countP (activePred uid') [s] = 0 := by
        simp [List.countP_cons, hs0]
      omega
  · intro db' s hok
    obtain ⟨sub, hact, hru, -, hdb'⟩ := update_subscription_ok hok
    obtain ⟨hf, hsu, -⟩ := get_active_ok_some hact
    subst hdb'
    exact I1_replaceActive h hf (hru.trans hsu)
  · intro db' s hok
    obtain ⟨sub, hact, hr, hdb'⟩ := cancel_subscription_ok hok
    obtain ⟨hf, hsu, -⟩ := get_active_ok_some hact
    subst hdb'
    apply I1_replaceActive h hf
    rw [hr]
    exact hsu
  · intro uid'
    simp only [expire_subscriptions]
    exact le_trans (countP_active_expire_le uid' now db.subs) (h uid')
  · intro hne r hok
    obtain ⟨rdb, rs⟩ := r
    obtain ⟨hnil, -⟩ := create_subscription_ok hok
    exact hne hnil
  · intro u p s0 hu hp hs
    unfold create_subscription get_active_subscription_by_user
    rw [hu, hp, hs]
    rfl

/-- C2: when the user exists, the plan exists with `is_active = true`, and the
user has no ACTIVE subscription, `create_subscription` inserts exactly one new
row with `status = ACTIVE`, `start_date = now` and
`end_date = start_date + timedelta(days = plan.duration_days)`. -/
theorem create_subscription_dates (db : DB) (now : Int) (c : SubscriptionCreate) (p : Plan)
    (hu : db.users.filter (fun x => decide (x = c.user_id)) = [c.user_id])
    (hp : db.plans.filter (fun q => decide (q.id = c.plan_id) && q.is_active) = [p])
    (hs : db.subs.filter (activePred c.user_id) = []) :
    create_subscription db now c =
      .ok ({ db with
              subs := db.subs ++
                [{ id := db.next_id, user_id := c.user_id, plan_id := c.plan_id,
                   status := SubscriptionStatus.ACTIVE, start_date := now,
                   end_date := now + timedeltaDays p.duration_days,
                   auto_renew := c.auto_renew, created_at := now }],
              next_id := db.next_id + 1 },
            { id := db.next_id, user_id := c.user_id, plan_id := c.plan_id,
              status := SubscriptionStatus.ACTIVE, start_date := now,
              end_date := now + timedeltaDays p.duration_days,
              auto_renew := c.auto_renew, created_at := now }) := by
  unfold create_subscription get_active_subscription_by_user
  rw [hu, hp, hs]
  rfl

/-- C3: `update_subscription` with a payload carrying a new active plan
recomputes `end_date = now + timedelta(days = newPlan.duration_days)` when the
new plan's duration differs from the currently bound plan's duration (a full
reset discarding the remaining time), and leaves `end_date` unchanged when the
two durations are equal. -/
theorem update_subscription_plan_switch (db : DB) (now : Int) (uid pid : Nat)
    (d : SubscriptionUpdate) (s : Subscription) (p cp : Plan)
    (hpid : d.plan_id = some pid)
    (hact : db.subs.filter (activePred uid) = [s])
    (hp : db.plans.filter (fun q => decide (q.id = pid) && q.is_active) = [p])
    (hcp : db.plans.filter (fun q => decide (q.id = s.plan_id)) = [cp]) :
    ∃ db' r, update_subscription db now uid d = .ok (db', r) ∧
      r.end_date = (if p.duration_days = cp.duration_days then s.end_date
                    else now + timedeltaDays p.duration_days) := by
  unfold update_subscription get_active_subscription_by_user
  rw [hact, hpid]
  simp only [scalarOneOrNone]
  rw [hp]
  simp only [scalarOneOrNone]
  rw [hcp]
  simp only [scalarOne]
  refine ⟨_, _, rfl, ?_⟩
  by_cases hd : p.duration_days = cp.duration_days
  · rw [if_pos hd, if_neg (not_not_intro hd)]
    rfl
  · rw [if_neg hd, if_pos hd]
    rfl

/-- C6: a subscription whose status is CANCELLED or EXPIRED is never mutated
by a later `cancel_subscription`, `update_subscription` or
`expire_subscriptions`: the row is carried into the next state unchanged.
(When the user has no other ACTIVE row, cancel and update raise `NotFound`,
which in this embedding carries no state at all.) -/
theorem terminal_status_immutable (db : DB) (now : Int) (uid : Nat)
    (d : SubscriptionUpdate) (i : Nat) (s : Subscription)
    (hmem : db.subs[i]? = some s)
    (hter : s.status = SubscriptionStatus.CANCELLED ∨
            s.status = SubscriptionStatus.EXPIRED) :
    (∀ db' r, cancel_subscription db uid = .ok (db', r) → db'.subs[i]? = some s) ∧
    (∀ db' r, update_subscription db now uid d = .ok (db', r) → db'.subs[i]? = some s) ∧
    (expire_subscriptions db now).1.subs[i]? = some s := by
  have hna : ∀ u2, activePred u2 s = false := by
    intro u2
    rcases hter with h1 | h1 <;> simp [activePred, h1]
  have hnexp : expirePred now s = false := by
    rcases hter with h1 | h1 <;> simp [expirePred, h1]
  refine ⟨?_, ?_, ?_⟩
  · intro db' r hok
    obtain ⟨sub, -, -, hdb'⟩ := cancel_subscription_ok hok
    subst hdb'
    show (db.subs.map fun x => if activePred uid x then r else x)[i]? = some s
    rw [List.getElem?_map, hmem]
    simp [hna uid]
  · intro db' r hok
    obtain ⟨sub, -, -, -, hdb'⟩ := update_subscription_ok hok
    subst hdb'
    show (db.subs.map fun x => if activePred uid x then r else x)[i]? = some s
    rw [List.getElem?_map, hmem]
    simp [hna uid]
  · show (db.subs.map fun x =>
      if expirePred now x then { x with status := SubscriptionStatus.EXPIRED } else x)[i]? =
        some s
    rw [List.getElem?_map, hmem]
    simp [hnexp]

/-- C7: when the user has exactly one ACTIVE subscription `s`,
`cancel_subscription` replaces it with `s` marked CANCELLED and
`auto_renew = false`, leaving every other row unchanged; when the user has no
ACTIVE subscription it fails with `NotFound` (an error result carries no new
state, so the store is unchanged). -/
theorem cancel_subscription_spec (db : DB) (uid : Nat) :
    (∀ s, db.subs.filter (activePred uid) = [s] →
      cancel_subscription db uid =
        .ok (replaceActive db uid
              { s with status := SubscriptionStatus.CANCELLED, auto_renew := false },
            { s with status := SubscriptionStatus.CANCELLED, auto_renew := false }) ∧
      ∀ i : Nat,
        (replaceActive db uid
          { s with status := SubscriptionStatus.CANCELLED, auto_renew := false }).subs[i]? =
        (db.subs[i]?).map (fun x =>
          if x.user_id = uid ∧ x.status = SubscriptionStatus.ACTIVE
          then { s with status := SubscriptionStatus.CANCELLED, auto_renew := false }
          else x)) ∧
    (db.subs.filter (activePred uid) = [] →
      cancel_subscription db uid = .error .NotFound) := by
  constructor
  · intro s hf
    constructor
    · unfold cancel_subscription get_active_subscription_by_user
      rw [hf]
      rfl
    · intro i
      show (db.subs.map fun x =>
        if activePred uid x
        then { s with status := SubscriptionStatus.CANCELLED, auto_renew := false }
        else x)[i]? = _
      rw [List.getElem?_map]
      cases hx : db.subs[i]? with
      | none => rfl
      | some x =>
        simp only [Option.map_some']
        by_cases hax : x.user_id = uid ∧ x.status = SubscriptionStatus.ACTIVE
        · rw [if_pos ((activePred_iff uid x).mpr hax), if_pos hax]
        · rw [if_neg (fun hc => hax ((activePred_iff uid x).mp hc)), if_neg hax]
  · intro hf
    unfold cancel_subscription get_active_subscription_by_user
    rw [hf]
    rfl

/-- C8: `create_subscription` fails with `NotFound` when the user is missing
or when no active plan with the given id exists, fails with `Conflict` when
the user already has an ACTIVE subscription, and on success the only write is
appending the single new row (an error result carries no new state, so every
failure leaves the store unchanged). -/
theorem create_subscription_failures (db : DB) (now : Int) (c : SubscriptionCreate) :
    (db.users.filter (fun x => decide (x = c.user_id)) = [] →
      create_subscription db now c = .error .NotFound) ∧
    (∀ u, db.users.filter (fun x => decide (x = c.user_id)) = [u] →
      db.plans.filter (fun q => decide (q.id = c.plan_id) && q.is_active) = [] →
      create_subscription db now c = .error .NotFound) ∧
    (∀ u p s0, db.users.filter (fun x => decide (x = c.user_id)) = [u] →
      db.plans.filter (fun q => decide (q.id = c.plan_id) && q.is_active) = [p] →
      db.subs.filter (activePred c.user_id) = [s0] →
      create_subscription db now c = .error .Conflict) ∧
    (∀ db' s, create_subscription db now c = .ok (db', s) →
      db'.subs = db.subs ++ [s] ∧ db'.users = db.users ∧ db'.plans = db.plans) := by
  refine ⟨?_, ?_, ?_, ?_⟩
  · intro hu
    unfold create_subscription
    rw [hu]
    rfl
  · intro u hu hp
    unfold create_subscription
    rw [hu, hp]
    rfl
  · intro u p s0 hu hp hs
    unfold create_subscription get_active_subscription_by_user
    rw [hu, hp, hs]
    rfl
  · intro db' s hok
    obtain ⟨-, -, hdb', -⟩ := create_subscription_ok hok
    subst hdb'
    exact ⟨rfl, rfl, rfl⟩

/-- Initial state for the INACTIVE-reachability counterexample: one user, one
active 30-day plan, no subscriptions. -/
def cxDB0 : DB :=
  { users := [1]
    plans := [{ id := 1, duration_days := 30, is_active := true }]
    subs := []
    next_id := 1 }

/-- The subscription created for user 1 at time 0 (30 days = 2592000 s). -/
def cxSub1 : Subscription :=
  { id := 1, user_id := 1, plan_id := 1, status := SubscriptionStatus.ACTIVE,
    start_date := 0, end_date := 2592000, auto_renew := true, created_at := 0 }

/-- State after the create call. -/
def cxDB1 : DB := { cxDB0 with subs := [cxSub1], next_id := 2 }

/-- The same subscription after an update payload carrying `status = INACTIVE`. -/
def cxSub2 : Subscription := { cxSub1 with status := SubscriptionStatus.INACTIVE }

/-- State after the update call: it contains an INACTIVE row. -/
def cxDB2 : DB := { cxDB1 with subs := [cxSub2] }

/-- C9 counterexample: a state containing an INACTIVE subscription IS
reachable: starting from `cxDB0`, a `create_subscription` followed by an
`update_subscription` whose payload carries `status = INACTIVE` (which the
`SubscriptionUpdate` schema admits and the `setattr` loop applies verbatim)
yields a state whose subscription has `status = INACTIVE`. -/
theorem inactive_status_reachable :
    create_subscription cxDB0 0 { user_id := 1, plan_id := 1, auto_renew := true } =
      .ok (cxDB1, cxSub1) ∧
    update_subscription cxDB1 0 1
      { plan_id := none, auto_renew := none,
        status := some SubscriptionStatus.INACTIVE } =
      .ok (cxDB2, cxSub2) ∧
    cxSub2 ∈ cxDB2.subs ∧ cxSub2.status = SubscriptionStatus.INACTIVE := by
  refine ⟨rfl, rfl, List.mem_singleton_self cxSub2, rfl⟩

/-- C9 (amended): `create_subscription`, `cancel_subscription` and
`expire_subscriptions` never produce an INACTIVE row, and neither does
`update_subscription` unless its payload explicitly carries
`status = INACTIVE`; hence along any sequence of the four operations in which
no update payload sets `status = INACTIVE`, starting from a state with no
INACTIVE rows, no reachable state contains one. -/
theorem no_inactive_without_explicit_update (db : DB) (now : Int)
    (c : SubscriptionCreate) (uid : Nat) (d : SubscriptionUpdate)
    (h : NoInactive db) (hd : d.status ≠ some SubscriptionStatus.INACTIVE) :
    (∀ db' s, create_subscription db now c = .ok (db', s) → NoInactive db') ∧
    (∀ db' s, update_subscription db now uid d = .ok (db', s) → NoInactive db') ∧
    (∀ db' s, cancel_subscription db uid = .ok (db', s) → NoInactive db') ∧
    NoInactive (expire_subscriptions db now).1 := by
  refine ⟨?_, ?_, ?_, ?_⟩
  · intro db' s hok
    obtain ⟨-, -, hdb', plan, -, hr⟩ := create_subscription_ok hok
    subst hdb'
    intro x hx
    rcases List.mem_append.mp hx with hx1 | hx1
    · exact h x hx1
    · have hxs : x = s := by simpa using hx1
      subst hxs
      rw [hr]
      simp
  · intro db' s hok
    obtain ⟨sub, hact, -, hst, hdb'⟩ := update_subscription_ok hok
    obtain ⟨-, -, hsa⟩ := get_active_ok_some hact
    subst hdb'
    intro x hx
    obtain ⟨a, ha, hfa⟩ := List.mem_map.mp hx
    by_cases hpa : activePred uid a = true
    · rw [if_pos hpa] at hfa
      subst hfa
      rw [hst, hsa]
      cases hds : d.status with
      | none => simp
      | some v =>
        simp only [Option.getD_some]
        intro hcon
        exact hd (by rw [hds, hcon])
    · rw [if_neg hpa] at hfa
      subst hfa
      exact h a ha
  · intro db' s hok
    obtain ⟨sub, hact, hr, hdb'⟩ := cancel_subscription_ok hok
    subst hdb'
    intro x hx
    obtain ⟨a, ha, hfa⟩ := List.mem_map.mp hx
    by_cases hpa : activePred uid a = true
    · rw [if_pos hpa] at hfa
      subst hfa
      rw [hr]
      simp
    · rw [if_neg hpa] at hfa
      subst hfa
      exact h a ha
  · intro x hx
    obtain ⟨a, ha, hfa⟩ := List.mem_map.mp hx
    by_cases hpa : expirePred now a = true
    · rw [if_pos hpa] at hfa
      subst hfa
      simp
    · rw [if_neg hpa] at hfa
      subst hfa
      exact h a ha

/-- C10: `get_subscription_by_user` only ever returns a row whose status is
ACTIVE or INACTIVE; when every one of the user's rows is CANCELLED or EXPIRED
it returns no row, so the `GET /subscriptions/{user_id}` route answers 404
"No subscription found for user" even though history rows for the user exist
in the store. -/
theorem get_subscription_by_user_spec (db : DB) (uid : Nat) :
    (∀ s, get_subscription_by_user db uid = .ok (some s) →
      s.status = SubscriptionStatus.ACTIVE ∨ s.status = SubscriptionStatus.INACTIVE) ∧
    ((∀ s ∈ db.subs, s.user_id = uid →
        s.status = SubscriptionStatus.CANCELLED ∨
        s.status = SubscriptionStatus.EXPIRED) →
      get_subscription_by_user db uid = .ok none ∧
      get_user_subscription db uid uid = .notFound "No subscription found for user") := by
  constructor
  · intro s hok
    unfold get_subscription_by_user at hok
    rw [scalarOneOrNone_eq_ok_some] at hok
    have hm : s ∈ db.subs.filter (currentPred uid) := by
      rw [hok]
      exact List.mem_singleton_self s
    have hp := (List.mem_filter.mp hm).2
    simp only [currentPred, Bool.and_eq_true, Bool.or_eq_true, decide_eq_true_eq] at hp
    exact hp.2
  · intro hall
    have hnil : db.subs.filter (currentPred uid) = [] := by
      rw [List.filter_eq_nil_iff]
      intro a ha
      simp only [currentPred, Bool.and_eq_true, Bool.or_eq_true, decide_eq_true_eq, not_and,
        not_or]
      intro h1
      rcases hall a ha h1 with h3 | h3 <;> rw [h3] <;> exact ⟨by simp, by simp⟩
    have h1 : get_subscription_by_user db uid = .ok none := by
      unfold get_subscription_by_user
      rw [hnil]
      rfl
    refine ⟨h1, ?_⟩
    unfold get_user_subscription
    rw [if_neg (not_not_intro rfl), h1]

/-! ## Concrete witness states -/

/-- A 30-day active plan. -/
def wPlan30 : Plan := { id := 1, duration_days := 30, is_active := true }

/-- A 14-day active plan. -/
def wPlan14 : Plan := { id := 2, duration_days := 14, is_active := true }

/-- One user, two active plans, no subscriptions. -/
def wDB0 : DB := { users := [1], plans := [wPlan30, wPlan14], subs := [], next_id := 1 }

/-- The subscription created for user 1 on the 30-day plan at time 0. -/
def wSubA : Subscription :=
  { id := 1, user_id := 1, plan_id := 1, status := SubscriptionStatus.ACTIVE,
    start_date := 0, end_date := 2592000, auto_renew := true, created_at := 0 }

/-- State in which user 1 holds the ACTIVE subscription `wSubA`. -/
def wDBA : DB := { wDB0 with subs := [wSubA], next_id := 2 }

/-- `wSubA` after cancellation. -/
def wSubC : Subscription :=
  { wSubA with status := SubscriptionStatus.CANCELLED, auto_renew := false }

/-- State in which user 1 has only the CANCELLED row `wSubC`. -/
def wDBC : DB := { wDB0 with subs := [wSubC], next_id := 2 }

/-- State with no users at all. -/
def wDBnoU : DB := { users := [], plans := [wPlan30, wPlan14], subs := [], next_id := 1 }

/-- An update payload that only switches to plan 2. -/
def wUpdPlan : SubscriptionUpdate := { plan_id := some 2, auto_renew := none, status := none }

/-- An empty update payload. -/
def wUpdNone : SubscriptionUpdate := { plan_id := none, auto_renew := none, status := none }

/-- An update payload that only turns auto-renew off. -/
def wUpdAR : SubscriptionUpdate := { plan_id := none, auto_renew := some false, status := none }

/-- The create request used by the witnesses. -/
def wCreate : SubscriptionCreate := { user_id := 1, plan_id := 1, auto_renew := true }

theorem wDBA_I1 : I1 wDBA :=
  fun _ => le_trans (List.countP_le_length _) (by decide)

/-- Witness for C1 at a concrete state: user 1 already holds `wSubA`, so a
second create returns `Conflict`. -/
theorem single_active_invariant_witness :
    wDBA.subs.filter (activePred 1) = [wSubA] ∧
    create_subscription wDBA 0 wCreate = .error .Conflict :=
  ⟨rfl,
    (single_active_invariant wDBA 0 wCreate 1 wUpdNone wDBA_I1).2.2.2.2.2
      1 wPlan30 wSubA rfl rfl rfl⟩

/-- Witness for C2 at a concrete state: the create at time 0 on the 30-day
plan yields `wSubA` with `end_date = 2592000 = 30 * 86400`. -/
theorem create_subscription_dates_witness :
    wDB0.users.filter (fun x => decide (x = 1)) = [1] ∧
    wDB0.plans.filter (fun q => decide (q.id = 1) && q.is_active) = [wPlan30] ∧
    wDB0.subs.filter (activePred 1) = [] ∧
    create_subscription wDB0 0 wCreate = .ok (wDBA, wSubA) :=
  ⟨rfl, rfl, rfl, create_subscription_dates wDB0 0 wCreate wPlan30 rfl rfl rfl⟩

/-- Witness for C3 at a concrete state: switching `wSubA` (30-day plan,
expiring at 2592000) to the 14-day plan at time 0 resets
`end_date = 0 + 14 * 86400`. -/
theorem update_subscription_plan_switch_witness :
    wDBA.subs.filter (activePred 1) = [wSubA] ∧
    ∃ db' r, update_subscription wDBA 0 1 wUpdPlan = .ok (db', r) ∧
      r.end_date = (if wPlan14.duration_days = wPlan30.duration_days then wSubA.end_date
                    else (0 : Int) + timedeltaDays wPlan14.duration_days) :=
  ⟨rfl,
    update_subscription_plan_switch wDBA 0 1 2 wUpdPlan wSubA wPlan14 wPlan30
      rfl rfl rfl rfl⟩

/-- Witness for C6 at a concrete state: the CANCELLED row `wSubC` survives an
expire sweep far in the future unchanged. -/
theorem terminal_status_immutable_witness :
    wDBC.subs[0]? = some wSubC ∧
    (wSubC.status = SubscriptionStatus.CANCELLED ∨
     wSubC.status = SubscriptionStatus.EXPIRED) ∧
    (expire_subscriptions wDBC 99999999).1.subs[0]? = some wSubC :=
  ⟨rfl, Or.inl rfl,
    (terminal_status_immutable wDBC 99999999 1 wUpdNone 0 wSubC rfl (Or.inl rfl)).2.2⟩

/-- Witness for C7 at a concrete state: cancelling user 1's subscription
marks `wSubA` CANCELLED with `auto_renew = false`. -/
theorem cancel_subscription_spec_witness :
    wDBA.subs.filter (activePred 1) = [wSubA] ∧
    cancel_subscription wDBA 1 = .ok (replaceActive wDBA 1 wSubC, wSubC) :=
  ⟨rfl, ((cancel_subscription_spec wDBA 1).1 wSubA rfl).1⟩

/-- Witness for C8 at a concrete state: creating for a non-existent user
fails with `NotFound`. -/
theorem create_subscription_failures_witness :
    wDBnoU.users.filter (fun x => decide (x = 1)) = [] ∧
    create_subscription wDBnoU 0 wCreate = .error .NotFound :=
  ⟨rfl, (create_subscription_failures wDBnoU 0 wCreate).1 rfl⟩

/-- Witness for the amended C9 at a concrete state: with a payload that does
not set `status = INACTIVE`, the expire sweep preserves freedom from
INACTIVE rows. -/
theorem no_inactive_without_explicit_update_witness :
    wUpdAR.status ≠ some SubscriptionStatus.INACTIVE ∧
    NoInactive (expire_subscriptions wDBA 0).1 :=
  ⟨by decide,
    (no_inactive_without_explicit_update wDBA 0 wCreate 1 wUpdAR
      (fun s hs => by
        have hsa : s = wSubA := by simpa [wDBA, wDB0] using hs
        subst hsa
        decide)
      (by decide)).2.2.2⟩

/-- Witness for C10 at a concrete state: user 1 has a (CANCELLED) history row,
yet the route answers 404 "No subscription found for user". -/
theorem get_subscription_by_user_spec_witness :
    get_user_subscription wDBC 1 1 = .notFound "No subscription found for user" ∧
    wDBC.subs ≠ [] :=
  ⟨((get_subscription_by_user_spec wDBC 1).2 (by decide)).2, by decide⟩
